import Mathlib

/-!
Verification of the client-side authentication/session layer of the
tailored-api-response system: a shallow embedding of the error-normalization
functions (`extractErrorMessage`, `parseValidationErrors` from
frontend_react/src/utils/error.js) and of the session store operations
(`AuthContext.jsx`), with theorems about the spec's claims.

JavaScript runtime values are embedded as the inductive type `JsVal`;
truthiness, property access, `typeof` tests, string coercion and
`JSON.stringify` are modelled explicitly so that each function definition
follows its source line by line.
-/

namespace TailoredApi

/-- Dynamic JavaScript value, as the error-normalization layer inspects it.
An object carries an `isError` flag standing for `instanceof Error`, and its
fields as an insertion-ordered association list. -/
inductive JsVal where
  | vNull
  | vUndefined
  | vBool (b : Bool)
  | vNum (n : Int)
  | vStr (s : String)
  | vArr (elems : List JsVal)
  | vObj (isError : Bool) (fields : List (String × JsVal))

/-- JavaScript truthiness: null, undefined, false, 0 and "" are falsy;
every array and object is truthy. -/
def truthy : JsVal → Bool
  | .vNull => false
  | .vUndefined => false
  | .vBool b => b
  | .vNum n => n != 0
  | .vStr s => !s.isEmpty
  | .vArr _ => true
  | .vObj _ _ => true

/-- Nullish test, for the `??` operator (null or undefined only). -/
def nullish : JsVal → Bool
  | .vNull => true
  | .vUndefined => true
  | _ => false

/-- JavaScript `a || b`. -/
def jsOrElse (a b : JsVal) : JsVal := if truthy a then a else b

/-- JavaScript `a ?? b`. -/
def jsCoalesce (a b : JsVal) : JsVal := if nullish a then b else a

/-- Property access `v.k` (and `v?.k`): field lookup on objects, undefined on
everything else.  The sources only dereference non-nullish values without
`?.`, so the throwing cases of plain access are never reached. -/
def JsVal.get : JsVal → String → JsVal
  | .vObj _ fields, k =>
      match fields.lookup k with
      | some v => v
      | none => .vUndefined
  | _, _ => .vUndefined

/-- Test for `typeof v === "string"`. -/
def JsVal.isStr : JsVal → Bool
  | .vStr _ => true
  | _ => false

/-- Test for `typeof v === "object"` (null and arrays included, as in JS). -/
def JsVal.typeofObject : JsVal → Bool
  | .vNull => true
  | .vArr _ => true
  | .vObj _ _ => true
  | _ => false

/-- Test for `Array.isArray(v)`. -/
def JsVal.isArr : JsVal → Bool
  | .vArr _ => true
  | _ => false

/-- Test for `v instanceof Error`. -/
def JsVal.isErrorInstance : JsVal → Bool
  | .vObj isError _ => isError
  | _ => false

/-- String escaping for JSON string literals (quote, backslash and the common
control characters). -/
def jsonEscapeChar (c : Char) : String :=
  if c = '"' then "\\\""
  else if c = '\\' then "\\\\"
  else if c = '\n' then "\\n"
  else if c = '\r' then "\\r"
  else if c = '\t' then "\\t"
  else String.singleton c

/-- JSON string literal for `s`. -/
def jsonQuote (s : String) : String :=
  "\"" ++ String.join (s.toList.map jsonEscapeChar) ++ "\""

mutual

/-- Model of `JSON.stringify`: none when the value serializes to nothing
(undefined at top level); object fields whose value serializes to nothing are
skipped, array elements that serialize to nothing become null. -/
def jsStringify : JsVal → Option String
  | .vNull => some "null"
  | .vUndefined => none
  | .vBool b => some (if b then "true" else "false")
  | .vNum n => some (toString n)
  | .vStr s => some (jsonQuote s)
  | .vArr elems => some ("[" ++ String.intercalate "," (jsStringifyElems elems) ++ "]")
  | .vObj _ fields =>
      some ("\x7b" ++ String.intercalate "," (jsStringifyFields fields) ++ "\x7d")

/-- Serialization of the elements of an array. -/
def jsStringifyElems : List JsVal → List String
  | [] => []
  | v :: rest =>
      (match jsStringify v with
       | some s => s
       | none => "null") :: jsStringifyElems rest

/-- Serialization of the fields of an object. -/
def jsStringifyFields : List (String × JsVal) → List String
  | [] => []
  | (k, v) :: rest =>
      match jsStringify v with
      | some s => (jsonQuote k ++ ":" ++ s) :: jsStringifyFields rest
      | none => jsStringifyFields rest

end

mutual

/-- Model of JavaScript `String(v)` (also template-literal interpolation and
the coercion `localStorage.setItem` applies to its argument). -/
def jsToString : JsVal → String
  | .vNull => "null"
  | .vUndefined => "undefined"
  | .vBool b => if b then "true" else "false"
  | .vNum n => toString n
  | .vStr s => s
  | .vArr elems => String.intercalate "," (jsToStringElems elems)
  | .vObj _ _ => "[object Object]"

/-- Conversion of array elements for `Array.prototype.toString`. -/
def jsToStringElems : List JsVal → List String
  | [] => []
  | v :: rest => jsToString v :: jsToStringElems rest

end

/-! ## extractErrorMessage (frontend_react/src/utils/error.js) -/

/-- Per-item extraction inside the Axios-response branch, source:
`data.detail.map(item => { if (!item) return null; if (typeof item === "string")
return item; if (typeof item?.msg === "string") return item.msg; return null; })`. -/
def detailItemMsg (item : JsVal) : JsVal :=
  if !truthy item then .vNull
  else if item.isStr then item
  else if (item.get "msg").isStr then item.get "msg"
  else .vNull

/-- Per-item extraction in the non-Axios branch, source:
`err.detail.map(item => (typeof item?.msg === "string" ? item.msg : null))`. -/
def detailItemMsgPlain (item : JsVal) : JsVal :=
  if (item.get "msg").isStr then item.get "msg" else .vNull

/-- Source `msgs.join("; ")` over the messages that survived `.filter(Boolean)`. -/
def joinMsgs (msgs : List JsVal) : JsVal :=
  .vStr (String.intercalate "; " (msgs.map jsToString))

/-- Source: the template literal `` `${response.status || ""} ${response.statusText}` ``
followed by `.trim()`. -/
def statusLine (response : JsVal) : String :=
  (jsToString (jsOrElse (response.get "status") (.vStr ""))
    ++ " " ++ jsToString (response.get "statusText")).trim

/-- The body of `if (response) { ... }` in extractErrorMessage: none when the
block falls through without returning. -/
def responseBlock (response : JsVal) : Option JsVal :=
  let data := response.get "data"
  -- String payload from server
  if data.isStr then some data
  else
    let structured : Option JsVal :=
      -- if (data && typeof data === "object")
      if truthy data && data.typeofObject then
        -- 1) \x7b detail: "message" \x7d
        if (data.get "detail").isStr then some (data.get "detail")
        else
          -- 2) \x7b detail: [\x7bloc, msg, type\x7d, ...] \x7d
          let fromList : Option JsVal :=
            match data.get "detail" with
            | .vArr detail =>
                let msgs := (detail.map detailItemMsg).filter truthy
                if msgs.length != 0 then some (joinMsgs msgs) else none
            | _ => none
          match fromList with
          | some r => some r
          | none =>
              -- 3) message / msg / error string fields
              if (data.get "message").isStr then some (data.get "message")
              else if (data.get "msg").isStr then some (data.get "msg")
              else if (data.get "error").isStr then some (data.get "error")
              else none
      else none
    match structured with
    | some r => some r
    | none =>
        -- Fallback to HTTP status text if available
        if truthy (response.get "statusText") then some (.vStr (statusLine response))
        else none

/-- Shallow embedding of `extractErrorMessage(err, fallback)` from
frontend_react/src/utils/error.js.  The surrounding try/catch of the source
can only fire on a JSON.stringify failure (circular value), which the
inductive value type cannot represent, so the catch arm is the
`none => fallback` case of the stringify step. -/
def extractErrorMessage (err : JsVal)
    (fallback : JsVal := .vStr "An unexpected error occurred.") : JsVal :=
  if !truthy err then fallback
  -- If already a string, return as-is
  else if err.isStr then err
  -- If it is a standard Error with a message
  else if err.isErrorInstance && truthy (err.get "message") then err.get "message"
  else
    let fromResponse : Option JsVal :=
      let response := err.get "response"
      if truthy response then responseBlock response else none
    match fromResponse with
    | some r => r
    | none =>
        -- Non-Axios shapes but with common fields
        if (err.get "detail").isStr then err.get "detail"
        else
          let fromList : Option JsVal :=
            match err.get "detail" with
            | .vArr detail =>
                let msgs := (detail.map detailItemMsgPlain).filter truthy
                if msgs.length != 0 then some (joinMsgs msgs) else none
            | _ => none
          match fromList with
          | some r => r
          | none =>
              if (err.get "msg").isStr then err.get "msg"
              else if (err.get "message").isStr then err.get "message"
              -- Generic object fallback: JSON stringify compactly
              else if err.typeofObject then
                match jsStringify err with
                | some s => .vStr s
                | none => fallback
              else .vStr (jsToString err)

/-! ## parseValidationErrors (frontend_react/src/utils/error.js) -/

/-- Result shape of `parseValidationErrors`: field errors as a JS object
(insertion-ordered association list), non-field errors, optional status. -/
structure ParsedErrors where
  fieldErrors : List (String × List String)
  nonFieldErrors : List String
  status : Option Int
deriving Repr, DecidableEq

/-- The initial `result` object of parseValidationErrors. -/
def emptyParsed : ParsedErrors := ⟨[], [], none⟩

/-- Appending a message to an existing key of the fieldErrors object,
source `result.fieldErrors[field].push(message)`. -/
def feAppend (fe : List (String × List String)) (k : String) (m : String) :
    List (String × List String) :=
  fe.map fun p => if p.1 = k then (p.1, p.2 ++ [m]) else p

/-- Shallow embedding of the inner helper `pushFieldError(field, message)`.
`field` is undefined or the scanned string segment; `message` is undefined or
the entry's msg string; both are tested for truthiness as in the source
(`!field`, `if (message)`), so an empty string counts as absent. -/
def pushFieldError (acc : ParsedErrors) (field : Option String)
    (message : Option String) : ParsedErrors :=
  match field with
  | none =>
      -- if (!field || typeof field !== "string") \x7b if (message) push; return \x7d
      match message with
      | some m => if m = "" then acc
                  else { acc with nonFieldErrors := acc.nonFieldErrors ++ [m] }
      | none => acc
  | some f =>
      if f = "" then
        match message with
        | some m => if m = "" then acc
                    else { acc with nonFieldErrors := acc.nonFieldErrors ++ [m] }
        | none => acc
      else
        -- if (!result.fieldErrors[field]) result.fieldErrors[field] = [];
        let acc :=
          if (acc.fieldErrors.lookup f).isNone then
            { acc with fieldErrors := acc.fieldErrors ++ [(f, [])] }
          else acc
        -- if (message) result.fieldErrors[field].push(message);
        match message with
        | some m => if m = "" then acc
                    else { acc with fieldErrors := feAppend acc.fieldErrors f m }
        | none => acc

/-- Reserved container names, source
`["body", "query", "path", "form", "header"]`. -/
def reservedNames : List String := ["body", "query", "path", "form", "header"]

/-- Helper for `scanField`: walks the already-reversed loc path. -/
def scanFieldRev : List JsVal → Option String
  | [] => none
  | .vStr s :: rest => if reservedNames.contains s then scanFieldRev rest else some s
  | _ :: rest => scanFieldRev rest

/-- Source loop `for (let i = loc.length - 1; i >= 0; i--)`: the first segment
from the end that is a string and not a reserved container name. -/
def scanField (loc : List JsVal) : Option String := scanFieldRev loc.reverse

/-- The entry's msg, source: `typeof item?.msg === "string" ? item.msg :
(typeof item === "string" ? item : undefined)`. -/
def entryMsg (item : JsVal) : Option String :=
  match item.get "msg" with
  | .vStr s => some s
  | _ =>
      match item with
      | .vStr s => some s
      | _ => none

/-- The entry's loc path, source: `Array.isArray(item?.loc) ? item.loc : []`. -/
def entryLoc (item : JsVal) : List JsVal :=
  match item.get "loc" with
  | .vArr loc => loc
  | _ => []

/-- Body of `detail.forEach(item => ...)` in parseValidationErrors. -/
def processEntry (acc : ParsedErrors) (item : JsVal) : ParsedErrors :=
  if !truthy item then acc
  else
    let msg := entryMsg item
    let loc := entryLoc item
    let field := scanField loc
    -- Normalize known fields: OAuth2 form uses username for email
    let field := if field = some "username" then some "email" else field
    pushFieldError acc field msg

/-- Shallow embedding of `parseValidationErrors(err)` from
frontend_react/src/utils/error.js.  The source's try/catch can never fire on
embedded values, every step being a total inspection. -/
def parseValidationErrors (err : JsVal) : ParsedErrors :=
  let result := emptyParsed
  let response := err.get "response"
  -- const status = response?.status ?? err?.status
  let statusVal := jsCoalesce (response.get "status") (err.get "status")
  let result :=
    match statusVal with
    | .vNum n => { result with status := some n }
    | _ => result
  -- const data = response?.data ?? err
  let data := jsCoalesce (response.get "data") err
  if !truthy data then result
  else
    match data with
    | .vStr s => { result with nonFieldErrors := result.nonFieldErrors ++ [s] }
    | _ =>
        match data.get "detail" with
        | .vArr detail => detail.foldl processEntry result
        | .vStr s => { result with nonFieldErrors := result.nonFieldErrors ++ [s] }
        | _ =>
            if (data.get "message").isStr then
              { result with nonFieldErrors :=
                  result.nonFieldErrors ++ [jsToString (data.get "message")] }
            else if (data.get "msg").isStr then
              { result with nonFieldErrors :=
                  result.nonFieldErrors ++ [jsToString (data.get "msg")] }
            else if (data.get "error").isStr then
              { result with nonFieldErrors :=
                  result.nonFieldErrors ++ [jsToString (data.get "error")] }
            else result

/-! ## Claim C2: the claimed and the amended per-entry algorithm -/

/-- Claim C2's per-entry algorithm as literally stated: the field name is the
first string segment of loc, scanning from the end, that is not a reserved
container name (whatever string that is, the empty string included); username
is rewritten to email; each entry's msg is appended under the field; the msg
of an entry with no resolvable field name goes to nonFieldErrors. -/
def claimedEntry (acc : ParsedErrors) (item : JsVal) : ParsedErrors :=
  if !truthy item then acc
  else
    let msg := entryMsg item
    let field := scanField (entryLoc item)
    let field := if field = some "username" then some "email" else field
    match field with
    | some f =>
        let acc :=
          if (acc.fieldErrors.lookup f).isNone then
            { acc with fieldErrors := acc.fieldErrors ++ [(f, [])] }
          else acc
        match msg with
        | some m => { acc with fieldErrors := feAppend acc.fieldErrors f m }
        | none => acc
    | none =>
        match msg with
        | some m => { acc with nonFieldErrors := acc.nonFieldErrors ++ [m] }
        | none => acc

/-- Amended resolution of an entry's field name: claim C2's backward scan and
username-to-email rewrite, with an empty-string result treated as
unresolvable (the code tests the scanned segment for truthiness, and the
empty string is falsy). -/
def amendedResolvedField (item : JsVal) : Option String :=
  match scanField (entryLoc item) with
  | some f =>
      let f := if f = "username" then "email" else f
      if f = "" then none else some f
  | none => none

/-- Amended message of an entry: claim C2's msg, with an empty string treated
as absent (the code tests the message for truthiness before pushing). -/
def amendedMsg (item : JsVal) : Option String :=
  match entryMsg item with
  | some m => if m = "" then none else some m
  | none => none

/-- Claim C2 as amended, per entry: an entry with a resolvable field name gets
the key created and its message appended under it in arrival order; the
message of an entry with no resolvable field name is appended to
nonFieldErrors rather than dropped. -/
def amendedEntry (acc : ParsedErrors) (item : JsVal) : ParsedErrors :=
  if !truthy item then acc
  else
    match amendedResolvedField item, amendedMsg item with
    | some f, some m =>
        { acc with fieldErrors :=
            if (acc.fieldErrors.lookup f).isNone then feAppend (acc.fieldErrors ++ [(f, [])]) f m
            else feAppend acc.fieldErrors f m }
    | some f, none =>
        { acc with fieldErrors :=
            if (acc.fieldErrors.lookup f).isNone then acc.fieldErrors ++ [(f, [])]
            else acc.fieldErrors }
    | none, some m => { acc with nonFieldErrors := acc.nonFieldErrors ++ [m] }
    | none, none => acc

/-- The per-entry processing of the code coincides with the amended claim C2
algorithm on every accumulator and entry. -/
theorem processEntry_eq_amendedEntry (acc : ParsedErrors) (item : JsVal) :
    processEntry acc item = amendedEntry acc item := by
  unfold processEntry amendedEntry amendedResolvedField amendedMsg pushFieldError
  cases ht : truthy item
  · simp
  · simp only [ht, Bool.not_true, Bool.false_eq_true, if_false]
    rcases hf : scanField (entryLoc item) with _ | f
    · rcases hm : entryMsg item with _ | m
      · simp [hf, hm]
      · by_cases hm0 : m = "" <;> simp [hf, hm, hm0]
    · rcases hm : entryMsg item with _ | m
      · by_cases hu : f = "username"
        · by_cases hl : (acc.fieldErrors.lookup "email").isNone <;> simp [hf, hm, hu, hl]
        · by_cases h0 : f = ""
          · simp [hf, hm, hu, h0]
          · by_cases hl : (acc.fieldErrors.lookup f).isNone <;> simp [hf, hm, hu, h0, hl]
      · by_cases hu : f = "username"
        · by_cases hm0 : m = "" <;>
            by_cases hl : (acc.fieldErrors.lookup "email").isNone <;>
            simp [hf, hm, hu, hm0, hl]
        · by_cases h0 : f = ""
          · by_cases hm0 : m = "" <;> simp [hf, hm, hu, h0, hm0]
          · by_cases hm0 : m = "" <;>
              by_cases hl : (acc.fieldErrors.lookup f).isNone <;>
              simp [hf, hm, hu, h0, hm0, hl]

/-- Folding the code's per-entry processing equals folding the amended
algorithm over any entry list. -/
theorem foldl_processEntry_eq_amended (L : List JsVal) (acc : ParsedErrors) :
    L.foldl processEntry acc = L.foldl amendedEntry acc := by
  induction L generalizing acc with
  | nil => rfl
  | cons x xs ih => simp only [List.foldl, processEntry_eq_amendedEntry, ih]

/-- The initial result object of parseValidationErrors once the status has
been copied: status from `response?.status ?? err?.status` when numeric. -/
def parseStatusInit (err : JsVal) : ParsedErrors :=
  match jsCoalesce ((err.get "response").get "status") (err.get "status") with
  | .vNum n => { emptyParsed with status := some n }
  | _ => emptyParsed

/-! ## Session store (frontend_react/src/context/AuthContext.jsx)

Each async operation of the store is embedded as a state-transition function
parameterized by the outcome of the gateway calls it awaits; `localStorage`
is the two fixed keys `auth_token` / `auth_user` the store touches. -/

/-- Durable storage projection: the values under the keys auth_token and
auth_user (`none` = key absent, `some s` = key present holding string s). -/
structure Storage where
  token : Option String
  user : Option String

/-- Observable state of the session store plus its durable projection. -/
structure Session where
  token : JsVal
  user : JsVal
  loading : Bool
  error : JsVal
  validationErrors : List (String × List String)
  storage : Storage

/-- Outcome of one awaited gateway call: the resolved value or the thrown
failure value. -/
inductive Outcome where
  | ok (v : JsVal)
  | err (e : JsVal)

/-- Result object an operation returns to its caller; a property the source
object literal omits reads as undefined. -/
structure CallResult where
  ok : Bool
  error : JsVal
  plan : JsVal

/-- The string `localStorage.setItem` stores for `JSON.stringify(v)` (String()
is applied when stringify yields undefined). -/
def setItemStringify (v : JsVal) : String :=
  match jsStringify v with
  | some s => s
  | none => "undefined"

/-- Source `persistToken(newToken)`: set the state, then mirror to storage —
a truthy token is stored verbatim, otherwise the key is removed. -/
def persistToken (newToken : JsVal) (st : Session) : Session :=
  let st := { st with token := newToken }
  if truthy newToken then
    { st with storage := { st.storage with token := some (jsToString newToken) } }
  else
    { st with storage := { st.storage with token := none } }

/-- Source `persistUser(u)`: set the state, then mirror to storage — a truthy
user is stored as JSON.stringify(u), otherwise the key is removed. -/
def persistUser (u : JsVal) (st : Session) : Session :=
  let st := { st with user := u }
  if truthy u then
    { st with storage := { st.storage with user := some (setItemStringify u) } }
  else
    { st with storage := { st.storage with user := none } }

/-- The shared catch path of doLogin/doSignup after the chosen error value is
computed: set error, roll both token and user back, clear loading. -/
def authFailureRollback (st : Session) (errVal : JsVal) : Session :=
  let st := { st with error := errVal }
  let st := persistToken .vNull st
  let st := persistUser .vNull st
  { st with loading := false }

/-- Shallow embedding of `doLogin(email, password)`: `loginOut` is the outcome
of `api.login`, `dashOut` of the subsequent `api.getDashboard` (consulted only
when the first succeeded). -/
def doLogin (st : Session) (loginOut dashOut : Outcome) : Session × CallResult :=
  let st := { st with error := .vNull, validationErrors := [], loading := true }
  match loginOut with
  | .err e =>
      (authFailureRollback st (extractErrorMessage e (.vStr "Login failed")),
       { ok := false, error := e, plan := .vUndefined })
  | .ok tokenRes =>
      let st := persistToken (tokenRes.get "access_token") st
      match dashOut with
      | .err e =>
          (authFailureRollback st (extractErrorMessage e (.vStr "Login failed")),
           { ok := false, error := e, plan := .vUndefined })
      | .ok dash =>
          let st := persistUser (jsOrElse (dash.get "user") .vNull) st
          ({ st with loading := false },
           { ok := true, error := .vUndefined, plan := .vUndefined })

/-- Shallow embedding of `doSignup(email, password, packageTier)`: on failure
it parses validation errors, exposes the field errors, and picks the joined
non-field errors over the generic extracted message. -/
def doSignup (st : Session) (signupOut dashOut : Outcome) : Session × CallResult :=
  let st := { st with error := .vNull, validationErrors := [], loading := true }
  match signupOut with
  | .err e =>
      let parsed := parseValidationErrors e
      let st := { st with validationErrors := parsed.fieldErrors }
      let friendly :=
        if parsed.nonFieldErrors.length != 0 then
          JsVal.vStr (String.intercalate "; " parsed.nonFieldErrors)
        else extractErrorMessage e (.vStr "Signup failed")
      (authFailureRollback st friendly,
       { ok := false, error := e, plan := .vUndefined })
  | .ok tokenRes =>
      let st := persistToken (tokenRes.get "access_token") st
      match dashOut with
      | .err e =>
          let parsed := parseValidationErrors e
          let st := { st with validationErrors := parsed.fieldErrors }
          let friendly :=
            if parsed.nonFieldErrors.length != 0 then
              JsVal.vStr (String.intercalate "; " parsed.nonFieldErrors)
            else extractErrorMessage e (.vStr "Signup failed")
          (authFailureRollback st friendly,
           { ok := false, error := e, plan := .vUndefined })
      | .ok dash =>
          let st := persistUser (jsOrElse (dash.get "user") .vNull) st
          ({ st with loading := false },
           { ok := true, error := .vUndefined, plan := .vUndefined })

/-- Shallow embedding of `doLogout()`: clear token, user, error and
validation errors; synchronous, no gateway call. -/
def doLogout (st : Session) : Session :=
  let st := persistToken .vNull st
  let st := persistUser .vNull st
  { st with error := .vNull, validationErrors := [] }

/-- The error value the refreshProfile/doUpdatePlan catch arms compute:
`e?.response?.data || e?.message || fallbackText`. -/
def rawCatchError (e : JsVal) (fallbackText : String) : JsVal :=
  jsOrElse (jsOrElse ((e.get "response").get "data") (e.get "message"))
    (.vStr fallbackText)

/-- Shallow embedding of `refreshProfile()`: no-op returning null when the
token is falsy; otherwise the profile fetch outcome drives the transition.
Returns the new state and the operation's return value. -/
def refreshProfile (st : Session) (dashOut : Outcome) : Session × JsVal :=
  if !truthy st.token then (st, .vNull)
  else
    let st := { st with loading := true }
    match dashOut with
    | .ok dash =>
        let u := jsOrElse (dash.get "user") .vNull
        let st := persistUser u st
        ({ st with loading := false }, u)
    | .err e =>
        let st := { st with error := rawCatchError e "Failed to refresh profile" }
        ({ st with loading := false }, .vNull)

/-- JavaScript object spread with one overriding key,
`\x7b ...user, package_tier: v \x7d`: an existing key is overwritten in place,
a new key is appended.  The store's user is null or a profile object, so only
the object case is ever spread. -/
def jsSpreadSet (u : JsVal) (k : String) (v : JsVal) : JsVal :=
  match u with
  | .vObj _ fields =>
      .vObj false
        (if (fields.lookup k).isSome then
          fields.map fun p => if p.1 = k then (k, v) else p
        else fields ++ [(k, v)])
  | other => other

/-- Shallow embedding of `doUpdatePlan(packageTier)`: returns the new state,
the result object, and how many gateway calls the path performed (the
unauthorized guard returns before any network call). -/
def doUpdatePlan (st : Session) (planOut : Outcome) : Session × CallResult × Nat :=
  if !truthy st.token then
    ({ st with error := .vStr "Unauthorized" },
     { ok := false, error := .vStr "Unauthorized", plan := .vUndefined }, 0)
  else
    let st := { st with error := .vNull, validationErrors := [], loading := true }
    match planOut with
    | .ok updated =>
        -- Immediately mirror into user object for responsive UI
        let nextUser :=
          if truthy st.user then jsSpreadSet st.user "package_tier" (updated.get "package_tier")
          else st.user
        let st := persistUser nextUser st
        ({ st with loading := false },
         { ok := true, error := .vUndefined, plan := updated }, 1)
    | .err e =>
        let st := { st with error := rawCatchError e "Failed to update plan" }
        ({ st with loading := false },
         { ok := false, error := e, plan := .vUndefined }, 1)

/-- Shallow embedding of the AuthProvider mount effect: with a falsy token it
does nothing; otherwise the dashboard fetch outcome drives it — success
stores the profile (writing `JSON.stringify(data?.user || null)` raw under
auth_user), failure forces a full logout. -/
def initEffect (st : Session) (dashOut : Outcome) : Session :=
  if !truthy st.token then st
  else
    let st := { st with loading := true }
    match dashOut with
    | .ok data =>
        let u := jsOrElse (data.get "user") .vNull
        let st := { st with user := u }
        let st := { st with storage := { st.storage with user := some (setItemStringify u) } }
        { st with loading := false }
    | .err _ =>
        -- Token may be invalid
        let st := doLogout st
        { st with loading := false }

/-- Shallow embedding of `clearAuthError()`. -/
def clearAuthError (st : Session) : Session :=
  { st with error := .vNull, validationErrors := [] }

/-! ## Concrete values used by the theorems -/

/-- An authenticated session: token "t" with a stored profile. -/
def sampleAuthedSession : Session :=
  { token := .vStr "t"
    user := .vObj false [("id", .vNum 1), ("email", .vStr "a@x.com"),
      ("package_tier", .vStr "free")]
    loading := false
    error := .vNull
    validationErrors := []
    storage := Storage.mk (some "t")
      (some "\x7b\"id\":1,\"email\":\"a@x.com\",\"package_tier\":\"free\"\x7d") }

/-- An unauthenticated session (token null, nothing stored). -/
def sampleAnonSession : Session :=
  { token := .vNull, user := .vNull, loading := false, error := .vNull,
    validationErrors := [], storage := { token := none, user := none } }

/-- A FastAPI-style 422 failure wrapping the given validation entries. -/
def mkValidationFailure (entries : List JsVal) : JsVal :=
  .vObj false [("response", .vObj false [("status", .vNum 422),
    ("data", .vObj false [("detail", .vArr entries)])])]

/-! ## Theorems about the claims -/

/-- Claim C1: for every invocation of login, if either the token-acquisition
gateway call or the subsequent profile fetch fails, the finished operation
leaves the session with token and user null, both durable storage keys
removed, and error set via extractMessage with the "Login failed" fallback —
partial authentication is never left standing. -/
theorem c1_login_rollback (st : Session) (e tokenRes : JsVal) (dashOut : Outcome) :
    ((doLogin st (.err e) dashOut).1.token = JsVal.vNull
      ∧ (doLogin st (.err e) dashOut).1.user = JsVal.vNull
      ∧ (doLogin st (.err e) dashOut).1.storage.token = none
      ∧ (doLogin st (.err e) dashOut).1.storage.user = none
      ∧ (doLogin st (.err e) dashOut).1.error = extractErrorMessage e (.vStr "Login failed")
      ∧ (doLogin st (.err e) dashOut).2.ok = false)
    ∧ ((doLogin st (.ok tokenRes) (.err e)).1.token = JsVal.vNull
      ∧ (doLogin st (.ok tokenRes) (.err e)).1.user = JsVal.vNull
      ∧ (doLogin st (.ok tokenRes) (.err e)).1.storage.token = none
      ∧ (doLogin st (.ok tokenRes) (.err e)).1.storage.user = none
      ∧ (doLogin st (.ok tokenRes) (.err e)).1.error
          = extractErrorMessage e (.vStr "Login failed")
      ∧ (doLogin st (.ok tokenRes) (.err e)).2.ok = false) :=
  ⟨⟨rfl, rfl, rfl, rfl, rfl, rfl⟩, ⟨rfl, rfl, rfl, rfl, rfl, rfl⟩⟩

/-- Claim C3 failing input: an Axios-style failure that is an Error instance
carrying the transport message, whose response body holds a structured string
detail. -/
def exC3 : JsVal :=
  .vObj true [("message", .vStr "Request failed with status code 422"),
    ("response", .vObj false
      [("data", .vObj false [("detail", .vStr "Invalid credentials")])])]

/-- Claim C3 (code bug): extractErrorMessage returns the generic error's
message attribute for a failure that also carries a structured body with a
string detail — the `instanceof Error` check of the source runs before the
response-body inspection, so the body-derived message never wins. -/
theorem c3_error_instance_shadows_body :
    extractErrorMessage exC3 (.vStr "fallback")
        = JsVal.vStr "Request failed with status code 422"
    ∧ ((exC3.get "response").get "data").get "detail" = JsVal.vStr "Invalid credentials"
    ∧ exC3.isErrorInstance = true :=
  ⟨rfl, rfl, rfl⟩

/-- Claim C4 counterexample: for the empty string the source's initial
falsy guard `if (!err) return fallback` fires, so extractMessage returns the
fallback rather than the (empty) string itself. -/
theorem c4_counterexample :
    extractErrorMessage (JsVal.vStr "") (JsVal.vStr "An unexpected error occurred.")
        = JsVal.vStr "An unexpected error occurred."
    ∧ JsVal.vStr "An unexpected error occurred." ≠ JsVal.vStr "" := by
  refine ⟨rfl, fun h => ?_⟩
  injection h with h2
  exact absurd h2 (by decide)

/-- Claim C4 as amended: for every nonempty plain string x,
extractMessage(x, fallback) returns x itself verbatim. -/
theorem c4_nonempty_string_verbatim (s : String) (fb : JsVal) (h : s ≠ "") :
    extractErrorMessage (JsVal.vStr s) fb = JsVal.vStr s := by
  have hs : s.isEmpty = false := by
    cases he : s.isEmpty
    · rfl
    · exact absurd ((String.isEmpty_iff s).mp he) h
  simp [extractErrorMessage, truthy, JsVal.isStr, hs]

/-- Witness for the amended claim C4 at the concrete input "boom". -/
theorem c4_nonempty_string_verbatim_witness :
    extractErrorMessage (JsVal.vStr "boom") (JsVal.vStr "fb") = JsVal.vStr "boom" :=
  c4_nonempty_string_verbatim "boom" (JsVal.vStr "fb") (by decide)

/-- Claim C5: failure-handling asymmetry — a failing refreshProfile while
authenticated sets error, preserves token, user and storage and returns null,
while a failing startup profile fetch forces the session fully
unauthenticated with both durable keys removed. -/
theorem c5_refresh_init_asymmetry (st st2 : Session) (e e2 : JsVal)
    (h : truthy st.token = true) (h2 : truthy st2.token = true) :
    ((refreshProfile st (.err e)).1.token = st.token
      ∧ (refreshProfile st (.err e)).1.user = st.user
      ∧ (refreshProfile st (.err e)).1.storage = st.storage
      ∧ (refreshProfile st (.err e)).1.error = rawCatchError e "Failed to refresh profile"
      ∧ (refreshProfile st (.err e)).2 = JsVal.vNull)
    ∧ ((initEffect st2 (.err e2)).token = JsVal.vNull
      ∧ (initEffect st2 (.err e2)).user = JsVal.vNull
      ∧ (initEffect st2 (.err e2)).storage.token = none
      ∧ (initEffect st2 (.err e2)).storage.user = none) := by
  constructor
  · simp [refreshProfile, h]
  · simp [initEffect, doLogout, persistToken, persistUser, h2,
      show truthy JsVal.vNull = false from rfl]

/-- Witness for claim C5 at the sample authenticated session with a plain
null failure value. -/
theorem c5_refresh_init_asymmetry_witness :
    (((refreshProfile sampleAuthedSession (.err JsVal.vNull)).1.token
        = sampleAuthedSession.token
      ∧ (refreshProfile sampleAuthedSession (.err JsVal.vNull)).1.user
        = sampleAuthedSession.user
      ∧ (refreshProfile sampleAuthedSession (.err JsVal.vNull)).1.storage
        = sampleAuthedSession.storage
      ∧ (refreshProfile sampleAuthedSession (.err JsVal.vNull)).1.error
        = rawCatchError JsVal.vNull "Failed to refresh profile"
      ∧ (refreshProfile sampleAuthedSession (.err JsVal.vNull)).2 = JsVal.vNull)
    ∧ ((initEffect sampleAuthedSession (.err JsVal.vNull)).token = JsVal.vNull
      ∧ (initEffect sampleAuthedSession (.err JsVal.vNull)).user = JsVal.vNull
      ∧ (initEffect sampleAuthedSession (.err JsVal.vNull)).storage.token = none
      ∧ (initEffect sampleAuthedSession (.err JsVal.vNull)).storage.user = none)) :=
  c5_refresh_init_asymmetry sampleAuthedSession sampleAuthedSession
    JsVal.vNull JsVal.vNull (by decide) (by decide)

/-- Claim C6 failing input: a ResponseFailure whose body is the structured
object with a detail field. -/
def exC6 : JsVal :=
  .vObj false [("response", .vObj false
    [("data", .vObj false [("detail", .vStr "Token expired")])])]

/-- Claim C6 (code bug): a failing refreshProfile stores the raw structured
response body object in the session's error field — `setError(e?.response?.data
|| ...)` — so error is not a human-readable string on this path (doUpdatePlan's
catch uses the same expression). -/
theorem c6_error_holds_raw_object :
    (refreshProfile sampleAuthedSession (.err exC6)).1.error
        = JsVal.vObj false [("detail", JsVal.vStr "Token expired")]
    ∧ ((refreshProfile sampleAuthedSession (.err exC6)).1.error).isStr = false
    ∧ ((refreshProfile sampleAuthedSession (.err exC6)).1.error).typeofObject = true :=
  ⟨rfl, rfl, rfl⟩

/-- Claim C7: updatePlan while unauthenticated fails immediately with an
"Unauthorized" error, performs no gateway call, and leaves token, user,
loading, validationErrors and the durable storage unchanged. -/
theorem c7_updatePlan_unauthorized (st : Session) (planOut : Outcome)
    (h : truthy st.token = false) :
    (doUpdatePlan st planOut).2.1.ok = false
    ∧ (doUpdatePlan st planOut).2.1.error = JsVal.vStr "Unauthorized"
    ∧ (doUpdatePlan st planOut).2.2 = 0
    ∧ (doUpdatePlan st planOut).1.error = JsVal.vStr "Unauthorized"
    ∧ (doUpdatePlan st planOut).1.token = st.token
    ∧ (doUpdatePlan st planOut).1.user = st.user
    ∧ (doUpdatePlan st planOut).1.loading = st.loading
    ∧ (doUpdatePlan st planOut).1.validationErrors = st.validationErrors
    ∧ (doUpdatePlan st planOut).1.storage = st.storage := by
  simp [doUpdatePlan, h]

/-- Witness for claim C7 at the unauthenticated sample session. -/
theorem c7_updatePlan_unauthorized_witness :
    ((doUpdatePlan sampleAnonSession (.ok (JsVal.vStr "pro"))).2.1.ok = false
    ∧ (doUpdatePlan sampleAnonSession (.ok (JsVal.vStr "pro"))).2.1.error
        = JsVal.vStr "Unauthorized"
    ∧ (doUpdatePlan sampleAnonSession (.ok (JsVal.vStr "pro"))).2.2 = 0
    ∧ (doUpdatePlan sampleAnonSession (.ok (JsVal.vStr "pro"))).1.error
        = JsVal.vStr "Unauthorized"
    ∧ (doUpdatePlan sampleAnonSession (.ok (JsVal.vStr "pro"))).1.token
        = sampleAnonSession.token
    ∧ (doUpdatePlan sampleAnonSession (.ok (JsVal.vStr "pro"))).1.user
        = sampleAnonSession.user
    ∧ (doUpdatePlan sampleAnonSession (.ok (JsVal.vStr "pro"))).1.loading
        = sampleAnonSession.loading
    ∧ (doUpdatePlan sampleAnonSession (.ok (JsVal.vStr "pro"))).1.validationErrors
        = sampleAnonSession.validationErrors
    ∧ (doUpdatePlan sampleAnonSession (.ok (JsVal.vStr "pro"))).1.storage
        = sampleAnonSession.storage) :=
  c7_updatePlan_unauthorized sampleAnonSession (.ok (JsVal.vStr "pro")) (by decide)

/-- Claim C8 (code bug): the startup effect's success path with a dashboard
response lacking a user writes the serialized null sentinel — the auth_user
key is present holding the string "null" instead of being removed. -/
theorem c8_init_writes_null_sentinel :
    (initEffect sampleAuthedSession (.ok (JsVal.vObj false []))).storage.user = some "null"
    ∧ (initEffect sampleAuthedSession (.ok (JsVal.vObj false []))).user = JsVal.vNull :=
  ⟨rfl, rfl⟩

/-- Claim C9: logout is idempotent — from any session state a second logout
changes nothing, and one logout leaves token, user and error null, validation
errors empty and both durable storage keys absent. -/
theorem c9_logout_idempotent (st : Session) :
    doLogout (doLogout st) = doLogout st
    ∧ (doLogout st).token = JsVal.vNull
    ∧ (doLogout st).user = JsVal.vNull
    ∧ (doLogout st).error = JsVal.vNull
    ∧ (doLogout st).validationErrors = []
    ∧ (doLogout st).storage.token = none
    ∧ (doLogout st).storage.user = none :=
  ⟨rfl, rfl, rfl, rfl, rfl, rfl, rfl⟩

/-- Claim C2 counterexample entries: one whose scanned segment is the empty
string, one whose msg is the empty string. -/
def exC2Entries : List JsVal :=
  [.vObj false [("loc", .vArr [.vStr "body", .vStr ""]), ("msg", .vStr "m")],
   .vObj false [("loc", .vArr [.vStr "body", .vStr "email"]), ("msg", .vStr "")]]

/-- Claim C2 counterexample: on a validation body whose first entry's scanned
segment is the empty string and whose second entry's msg is the empty string,
the claimed algorithm puts "m" under the field "" and "" under email, but the
code routes "m" to nonFieldErrors and drops the empty message, leaving email
bound to the empty list. -/
theorem c2_counterexample :
    (parseValidationErrors (mkValidationFailure exC2Entries)).fieldErrors = [("email", [])]
    ∧ (parseValidationErrors (mkValidationFailure exC2Entries)).nonFieldErrors = ["m"]
    ∧ (exC2Entries.foldl claimedEntry emptyParsed).fieldErrors = [("", ["m"]), ("email", [""])]
    ∧ (exC2Entries.foldl claimedEntry emptyParsed).nonFieldErrors = []
    ∧ (parseValidationErrors (mkValidationFailure exC2Entries)).fieldErrors
        ≠ (exC2Entries.foldl claimedEntry emptyParsed).fieldErrors :=
  ⟨rfl, rfl, rfl, rfl, by decide⟩

/-- Claim C2 as amended: for every failure whose body (or failure value
itself) carries a list-valued explanation field, parseValidationErrors is the
fold of the amended per-entry algorithm — backward scan for the first
non-reserved string segment with an empty-string result unresolvable,
username rewritten to email, truthy messages appended under the field in
arrival order, messages of unresolvable entries appended to nonFieldErrors —
over the status-initialized empty result. -/
theorem c2_field_mapping_amended (err : JsVal) (L : List JsVal)
    (h : (jsCoalesce ((err.get "response").get "data") err).get "detail" = JsVal.vArr L) :
    parseValidationErrors err = L.foldl amendedEntry (parseStatusInit err) := by
  rcases hD : jsCoalesce ((err.get "response").get "data") err with _ | _ | b | n | s | elems | ⟨be, fs⟩
  all_goals rw [hD] at h
  · exact JsVal.noConfusion h
  · exact JsVal.noConfusion h
  · exact JsVal.noConfusion h
  · exact JsVal.noConfusion h
  · exact JsVal.noConfusion h
  · exact JsVal.noConfusion h
  · simp only [parseValidationErrors, parseStatusInit, hD, h, truthy, Bool.not_true,
      Bool.false_eq_true, if_false]
    exact foldl_processEntry_eq_amended L _

/-- Witness for the amended claim C2 at the concrete counterexample input. -/
theorem c2_field_mapping_amended_witness :
    parseValidationErrors (mkValidationFailure exC2Entries)
      = exC2Entries.foldl amendedEntry (parseStatusInit (mkValidationFailure exC2Entries)) :=
  c2_field_mapping_amended (mkValidationFailure exC2Entries) exC2Entries rfl

/-- Claim C10: an entry whose loc resolves to a truthy field name but whose
msg is not a string still creates the fieldErrors key bound to the empty
list, and contributes nothing to nonFieldErrors. -/
theorem c10_field_key_without_message (loc : List JsVal) (f : String) (m : JsVal)
    (hf : scanField loc = some f) (hne : f ≠ "") (hm : m.isStr = false) :
    (parseValidationErrors (mkValidationFailure
        [JsVal.vObj false [("loc", JsVal.vArr loc), ("msg", m)]])).fieldErrors
      = [(if f = "username" then "email" else f, [])]
    ∧ (parseValidationErrors (mkValidationFailure
        [JsVal.vObj false [("loc", JsVal.vArr loc), ("msg", m)]])).nonFieldErrors = [] := by
  have hmsg : entryMsg (JsVal.vObj false [("loc", JsVal.vArr loc), ("msg", m)]) = none := by
    cases m <;> simp_all [entryMsg, JsVal.get, JsVal.isStr, List.lookup]
  have hloc : entryLoc (JsVal.vObj false [("loc", JsVal.vArr loc), ("msg", m)]) = loc := rfl
  have hstep : parseValidationErrors (mkValidationFailure
      [JsVal.vObj false [("loc", JsVal.vArr loc), ("msg", m)]])
      = processEntry { emptyParsed with status := some 422 }
          (JsVal.vObj false [("loc", JsVal.vArr loc), ("msg", m)]) := rfl
  rw [hstep]
  simp only [processEntry, hmsg, hloc, hf, truthy, Bool.not_true, Bool.false_eq_true, if_false]
  by_cases hu : f = "username" <;> simp [hu, pushFieldError, hne, emptyParsed]

/-- Witness for claim C10: the entry for field name with a numeric msg. -/
theorem c10_field_key_without_message_witness :
    ((parseValidationErrors (mkValidationFailure
        [JsVal.vObj false [("loc", JsVal.vArr [JsVal.vStr "body", JsVal.vStr "name"]),
          ("msg", JsVal.vNum 5)]])).fieldErrors
      = [(if "name" = "username" then "email" else "name", [])]
    ∧ (parseValidationErrors (mkValidationFailure
        [JsVal.vObj false [("loc", JsVal.vArr [JsVal.vStr "body", JsVal.vStr "name"]),
          ("msg", JsVal.vNum 5)]])).nonFieldErrors = []) :=
  c10_field_key_without_message [JsVal.vStr "body", JsVal.vStr "name"] "name" (JsVal.vNum 5)
    (by decide) (by decide) rfl

end TailoredApi
